import Mathlib

/-!
Verification development for the async-sqlite core (obeli-sk/deps-async-sqlite).

The repository ships `src/lib.rs`, which declares `mod client; mod error;
mod pool;` and re-exports `Client`, `ClientBuilder`, `JournalMode`, `Error`,
`Pool` and `PoolBuilder`, together with the integration tests in
`src/tests/tests.rs`.  The module files `client.rs`, `error.rs` and `pool.rs`
themselves are not present under `src/`, so the Worker/Client/Pool protocol
below is modelled from the specification (spec.md sections 3-7) and checked
against the behaviour the tests in `src/tests/tests.rs` exercise.
-/

set_option maxHeartbeats 1000000

namespace AsyncSqlite

/-- Modelled from the spec: the journal modes accepted by the builder
("journal mode (delete/truncate/persist/memory/WAL/off — engine-defined
set)", spec section 6).  `client.rs`, which defines `JournalMode`, is missing
from `src/`. -/
inductive JournalMode where
  | delete
  | truncate
  | persist
  | memory
  | wal
  | off
  deriving DecidableEq

/-- Modelled from the spec: the lowercase string the engine reports for each
journal mode when queried with `PRAGMA journal_mode` (as in
`test_journal_mode`, which expects the string "wal"). -/
def JournalMode.toStr : JournalMode → String
  | .delete => "delete"
  | .truncate => "truncate"
  | .persist => "persist"
  | .memory => "memory"
  | .wal => "wal"
  | .off => "off"

/-- Modelled from the spec: the unified error type of `error.rs` (missing
from `src/`): "EngineError (from underlying database), ClosedError
(operation attempted after shutdown), WorkerLostError (response never
arrived because the Worker thread terminated unexpectedly),
OperationAbortedError (the submitted operation terminated abnormally)"
(spec section 7). -/
inductive Error where
  | engine (code : Nat)
  | closed
  | workerLost
  | operationAborted
  deriving DecidableEq

/-- Values produced by operations in the model: the tests read back `TEXT`
columns and unit acknowledgements. -/
inductive Value where
  | unit
  | str (s : String)
  deriving DecidableEq

/-- Modelled from the spec: the state persisted by the underlying engine —
a table of rows plus the running log used by testable property 1 of the
spec ("have each operation append its index to a running log inside the
connection"). -/
structure Db where
  rows : List (Nat × String)
  log : List Nat
  deriving DecidableEq

/-- A freshly created database file: no rows, empty log. -/
def freshDb : Db := { rows := [], log := [] }

/-- Modelled from the spec: the synchronous connection object a Worker
exclusively owns — its per-connection journal-mode configuration plus the
engine state it reaches (spec sections 3 and 6). -/
structure Conn where
  mode : JournalMode
  db : Db
  deriving DecidableEq

/-- How an operation's callback terminates inside the Worker: a normal
return carrying a value, a normal return carrying an engine-level error, or
an abnormal termination (abort) of the callback itself (spec section 4.1). -/
inductive Outcome where
  | ok (v : Value)
  | engineErr (code : Nat)
  | aborted
  deriving DecidableEq

/-- Modelled from the spec: an Operation is "a callback that receives
exclusive, synchronous access to one connection and returns a value or an
engine error" (spec section 3); it may also mutate the connection state and
may terminate abnormally. -/
abbrev Op := Conn → Conn × Outcome

/-- The response delivered through an operation's one-shot response slot. -/
abbrev Response := Except Error Value

/-- Modelled from the spec: how the Worker converts a callback's termination
into the response it sends back — engine errors pass through verbatim, and
an abort is caught at the loop boundary and converted into the distinguished
OperationAbortedError (spec sections 4.1 and 7). -/
def toResponse : Outcome → Response
  | .ok v => .ok v
  | .engineErr code => .error (.engine code)
  | .aborted => .error .operationAborted

/-- Observable scheduling events of the Worker loop: operation `i` starts
executing, operation `i` finishes (normally or by a caught abort). -/
inductive Event where
  | start (i : Nat)
  | finish (i : Nat)
  deriving DecidableEq

/-- Modelled from the spec: the Worker's sequential processing loop
("repeatedly take the next Task envelope; execute the Operation against the
owned connection; on normal return deliver the value; on an engine-level
error deliver that error; on an abnormal termination catch it at the loop
boundary, convert it into a distinguished protocol error, and continue
processing subsequent envelopes", spec section 4.1).  Given the index of the
first envelope, the owned connection and the FIFO inbox contents, it returns
the final connection, the responses delivered in order, and the trace of
start/finish events. -/
def workerRun : Nat → Conn → List Op → Conn × List Response × List Event
  | _, c, [] => (c, [], [])
  | i, c, op :: rest =>
    let r := op c
    let w := workerRun (i + 1) r.1 rest
    (w.1, toResponse r.2 :: w.2.1, .start i :: .finish i :: w.2.2)

/-- The canonical event trace of a Worker that processes `n` envelopes
starting at index `i`: each operation starts and then finishes before the
next one starts. -/
def canonicalTrace : Nat → Nat → List Event
  | _, 0 => []
  | i, n + 1 => .start i :: .finish i :: canonicalTrace (i + 1) n

/-- Number of `start` events in a trace. -/
def countStart : List Event → Nat
  | [] => 0
  | .start _ :: r => countStart r + 1
  | .finish _ :: r => countStart r

/-- Number of `finish` events in a trace. -/
def countFinish : List Event → Nat
  | [] => 0
  | .start _ :: r => countFinish r
  | .finish _ :: r => countFinish r + 1

/-- Operations in flight after a trace: started but not yet finished. -/
def inFlight (tr : List Event) : Nat := countStart tr - countFinish tr

/-- The operation used by the spec's testable property 1: append index `i`
to the running log inside the connection and return unit. -/
def indexLogOp (i : Nat) : Op :=
  fun c => ({ c with db := { c.db with log := c.db.log ++ [i] } }, .ok .unit)

/-- An insert of row `(k, v)`: fails with the engine's constraint-violation
error (SQLITE_CONSTRAINT, code 19) when the primary key `k` is already
present, otherwise appends the row (as in the tests' `INSERT INTO testing
VALUES (k, v)` against a `PRIMARY KEY` column). -/
def writeOp (k : Nat) (v : String) : Op :=
  fun c =>
    if (c.db.rows.lookup k).isSome then
      (c, .engineErr 19)
    else
      ({ c with db := { c.db with rows := c.db.rows ++ [(k, v)] } }, .ok .unit)

/-- A `SELECT val FROM testing WHERE id=k` returning the stored text, or the
engine's generic error (code 1) when the row is absent (as in the tests'
`query_row`). -/
def readOp (k : Nat) : Op :=
  fun c =>
    match c.db.rows.lookup k with
    | some s => (c, .ok (.str s))
    | none => (c, .engineErr 1)

/-- The `PRAGMA journal_mode` query of `test_journal_mode`: reports the
connection's active journal mode as a lowercase string. -/
def pragmaJournalMode : Op :=
  fun c => (c, .ok (.str c.mode.toStr))

/-- Modelled from the spec: the Worker lifecycle states "{Running, Closing,
Closed}" (spec section 3), extended with the `lost` condition the error
taxonomy names ("the Worker thread terminated unexpectedly", spec
section 7). -/
inductive WorkerState where
  | running
  | closing
  | closed
  | lost
  deriving DecidableEq

/-- Modelled from the spec: a Task envelope "pairs an Operation with a
response destination (a one-shot slot the caller awaits)" (spec
section 3). -/
structure Envelope where
  op : Op
  slot : Nat

/-- Modelled from the spec: the public `Client` of the missing `client.rs` —
a handle wrapping one Worker's submission channel.  It carries the Worker's
lifecycle state, the exclusively owned connection, the FIFO inbox of pending
envelopes, the filled one-shot response slots, the next fresh slot id, and
how many times the native connection handle has been released. -/
structure Client where
  state : WorkerState
  connection : Conn
  inbox : List Envelope
  slots : List (Nat × Response)
  nextSlot : Nat
  releaseCount : Nat

/-- Modelled from the spec: submission of an operation.  While the Worker is
running (or already lost — the channel still accepts sends) the envelope is
appended to the FIFO inbox and the fresh slot id is handed back; "any
envelope submitted after Closing/Closed is rejected immediately with a
'connection closed' error rather than being enqueued" (spec section 4.1). -/
def Client.submit (c : Client) (op : Op) : Client × Except Error Nat :=
  match c.state with
  | .running | .lost =>
    ({ c with inbox := c.inbox ++ [{ op := op, slot := c.nextSlot }],
              nextSlot := c.nextSlot + 1 }, .ok c.nextSlot)
  | .closing | .closed => (c, .error .closed)

/-- Modelled from the spec: the Worker draining its inbox — it processes the
queued envelopes in FIFO order through `workerRun` and fills each envelope's
response slot.  A lost Worker fills nothing; a closing/closed Worker has an
empty inbox and nothing to do. -/
def Client.drain (c : Client) : Client :=
  match c.state with
  | .running =>
    let w := workerRun c.nextSlot c.connection (c.inbox.map Envelope.op)
    { c with connection := w.1,
             slots := c.slots ++ (c.inbox.map Envelope.slot).zip w.2.1,
             inbox := [] }
  | _ => c

/-- Modelled from the spec: reading a one-shot response slot.  When the slot
was never filled because the Worker terminated unexpectedly, the caller
observes WorkerLostError ("response never arrived because the Worker thread
terminated unexpectedly", spec section 7). -/
def Client.awaitSlot (c : Client) (slot : Nat) : Response :=
  (c.slots.lookup slot).getD (.error .workerLost)

/-- Modelled from the spec: the blocking receive on a one-shot response
slot used by the `_blocking` entry points — the same rendezvous read as
`Client.awaitSlot`, performed by parking the calling thread instead of
suspending a task. -/
def Client.recvBlocking (c : Client) (slot : Nat) : Response :=
  (c.slots.lookup slot).getD (.error .workerLost)

/-- Modelled from the spec: `conn` (the suspending `run` entry point of the
missing `client.rs`): submit the operation, let the Worker process its
inbox, and await the one-shot response; a rejected submission returns its
error immediately (spec section 4.2). -/
def Client.conn (c : Client) (op : Op) : Client × Response :=
  match c.submit op with
  | (c1, .error e) => (c1, .error e)
  | (c1, .ok slot) =>
    let c2 := c1.drain
    (c2, c2.awaitSlot slot)

/-- Modelled from the spec: `conn_blocking` (the blocking `run_blocking`
entry point): the same submission protocol, waiting via the blocking
receive instead of a cooperative await (spec section 4.2). -/
def Client.conn_blocking (c : Client) (op : Op) : Client × Response :=
  match c.submit op with
  | (c1, .error e) => (c1, .error e)
  | (c1, .ok slot) =>
    let c2 := c1.drain
    (c2, c2.recvBlocking slot)

/-- Modelled from the spec: `close` — "requests Worker shutdown and waits
for acknowledgment" (spec section 4.2): a running (or closing) Worker
drains its remaining envelopes, releases the connection exactly once,
transitions to Closed and acknowledges; a Worker already Closed
acknowledges again without error; a lost Worker cannot acknowledge, which
surfaces as WorkerLostError, and the handle is marked closed. -/
def Client.close (c : Client) : Client × Except Error Unit :=
  match c.state with
  | .running | .closing =>
    let c1 := c.drain
    ({ c1 with state := .closed, releaseCount := c1.releaseCount + 1 }, .ok ())
  | .closed => (c, .ok ())
  | .lost => ({ c with state := .closed }, .error .workerLost)

/-- Modelled from the spec: `close_blocking` — the same shutdown request as
`Client.close`, waiting for the acknowledgment by blocking (spec
section 6). -/
def Client.close_blocking (c : Client) : Client × Except Error Unit :=
  match c.state with
  | .running | .closing =>
    let c1 := c.drain
    ({ c1 with state := .closed, releaseCount := c1.releaseCount + 1 }, .ok ())
  | .closed => (c, .ok ())
  | .lost => ({ c with state := .closed }, .error .workerLost)

/-- Modelled from the spec: the configuration captured by `ClientBuilder`
before the connection opens — path and journal mode, immutable afterward
(spec sections 3 and 6). -/
structure ClientBuilder where
  path : String := ""
  mode : JournalMode := .delete

/-- `ClientBuilder::new()`. -/
def ClientBuilder.new : ClientBuilder := {}

/-- `ClientBuilder::path`. -/
def ClientBuilder.setPath (b : ClientBuilder) (p : String) : ClientBuilder :=
  { b with path := p }

/-- `ClientBuilder::journal_mode`. -/
def ClientBuilder.journal_mode (b : ClientBuilder) (m : JournalMode) : ClientBuilder :=
  { b with mode := m }

/-- Modelled from the spec: `open` — starts exactly one background Worker
owning a fresh connection configured per the builder ("Worker's connection
always reflects the configuration supplied at open", spec section 3). -/
def ClientBuilder.openClient (b : ClientBuilder) : Client :=
  { state := .running, connection := { mode := b.mode, db := freshDb },
    inbox := [], slots := [], nextSlot := 0, releaseCount := 0 }

/-- Modelled from the spec: `open_blocking` — the same open, waiting for the
Worker's readiness by blocking (spec section 6). -/
def ClientBuilder.open_blocking (b : ClientBuilder) : Client :=
  { state := .running, connection := { mode := b.mode, db := freshDb },
    inbox := [], slots := [], nextSlot := 0, releaseCount := 0 }

/-- Modelled from the spec: whether the underlying engine refuses to open a
connection at the given path — `open` "fails with an open error (bad path,
invalid pragma, engine refuses mode)" (spec section 4.2).  The engine's
refusal condition is opaque to the core (spec section 1); it is modelled
here by the one universally invalid path shape, a path with an embedded NUL
byte, which no engine path API accepts. -/
def pathRefused (p : String) : Bool :=
  p.data.contains (Char.ofNat 0)

/-- Modelled from the spec: the full `open` call including its failure
path — "suspends the caller until the Worker has started and its connection
is ready, or fails with an open error" (spec section 4.2).  When the engine
refuses the configured path, the caller receives the engine's open error
(SQLITE_CANTOPEN, code 14) and no Worker starts; otherwise the caller
receives the freshly started Client of `ClientBuilder.openClient`. -/
def ClientBuilder.tryOpen (b : ClientBuilder) : Except Error Client :=
  if pathRefused b.path then .error (.engine 14) else .ok b.openClient

/-- Modelled from the spec: a pool member — one Worker/connection pair,
carrying its lifecycle state and per-connection journal-mode
configuration.  Members "are otherwise independent and share no state"
(spec section 3) apart from the engine's on-disk database, which all of
them open at the same path. -/
structure Member where
  state : WorkerState
  mode : JournalMode
  deriving DecidableEq

/-- Modelled from the spec: how one member handles the pool-wide close
request — the same shutdown protocol as `Client.close` (spec
sections 4.2 and 4.3). -/
def memberClose (m : Member) : Member × Except Error Unit :=
  match m.state with
  | .running | .closing => ({ m with state := .closed }, .ok ())
  | .closed => (m, .ok ())
  | .lost => ({ m with state := .closed }, .error .workerLost)

/-- Modelled from the spec: the `Pool` of the missing `pool.rs` — "an
ordered sequence of Worker handles, fixed at pool-open time" plus "a
scheduling cursor" for the round-robin policy (spec sections 3 and 4.3).
The on-disk database the members share lives in `db`. -/
structure Pool where
  members : List Member
  db : Db
  cursor : Nat

/-- First failure of a list of member acknowledgements, or success when
every member succeeded (the pool-close aggregation policy: report the first
failure). -/
def firstErr : List (Except Error Unit) → Except Error Unit
  | [] => .ok ()
  | .ok _ :: rest => firstErr rest
  | .error e :: _ => .error e

/-- Modelled from the spec: pool `conn` — "round-robin across members,
chosen independently of operation content" (spec section 4.3): the cursor
selects a member, the operation executes on that member's connection
against the shared database, and the cursor advances.  A member that is
closed or closing rejects the operation; a lost member's response never
arrives. -/
def Pool.conn (p : Pool) (op : Op) : Pool × Response :=
  match p.members[p.cursor % p.members.length]? with
  | none => (p, .error .closed)
  | some m =>
    match m.state with
    | .running =>
      let r := op { mode := m.mode, db := p.db }
      ({ members := p.members.set (p.cursor % p.members.length)
                      { state := .running, mode := r.1.mode },
         db := r.1.db, cursor := p.cursor + 1 }, toResponse r.2)
    | .lost => ({ p with cursor := p.cursor + 1 }, .error .workerLost)
    | .closing | .closed => ({ p with cursor := p.cursor + 1 }, .error .closed)

/-- Modelled from the spec: pool `conn_blocking` — the same round-robin
dispatch, the caller waiting by blocking receive (spec section 4.3). -/
def Pool.conn_blocking (p : Pool) (op : Op) : Pool × Response :=
  match p.members[p.cursor % p.members.length]? with
  | none => (p, .error .closed)
  | some m =>
    match m.state with
    | .running =>
      let r := op { mode := m.mode, db := p.db }
      ({ members := p.members.set (p.cursor % p.members.length)
                      { state := .running, mode := r.1.mode },
         db := r.1.db, cursor := p.cursor + 1 }, toResponse r.2)
    | .lost => ({ p with cursor := p.cursor + 1 }, .error .workerLost)
    | .closing | .closed => ({ p with cursor := p.cursor + 1 }, .error .closed)

/-- Modelled from the spec: pool-level `close` — "pool-level close must
close every member; it succeeds only if all members close successfully"
(spec section 4.3); the first member failure is the one reported. -/
def Pool.close (p : Pool) : Pool × Except Error Unit :=
  ({ p with members := p.members.map (fun m => (memberClose m).1) },
   firstErr (p.members.map (fun m => (memberClose m).2)))

/-- Modelled from the spec: pool `close_blocking` — the same collective
shutdown, awaited by blocking (spec section 6). -/
def Pool.close_blocking (p : Pool) : Pool × Except Error Unit :=
  ({ p with members := p.members.map (fun m => (memberClose m).1) },
   firstErr (p.members.map (fun m => (memberClose m).2)))

/-- Modelled from the spec: the configuration captured by `PoolBuilder` —
path, journal mode and the optional number of connections, which "defaults
to a small positive constant" and "must be ≥ 1" (spec section 4.3). -/
structure PoolBuilder where
  path : String := ""
  mode : JournalMode := .delete
  numConns : Option Nat := none

/-- `PoolBuilder::new()`. -/
def PoolBuilder.new : PoolBuilder := {}

/-- `PoolBuilder::path`. -/
def PoolBuilder.setPath (b : PoolBuilder) (p : String) : PoolBuilder :=
  { b with path := p }

/-- `PoolBuilder::journal_mode`. -/
def PoolBuilder.journal_mode (b : PoolBuilder) (m : JournalMode) : PoolBuilder :=
  { b with mode := m }

/-- `PoolBuilder::num_conns`. -/
def PoolBuilder.num_conns (b : PoolBuilder) (n : Nat) : PoolBuilder :=
  { b with numConns := some n }

/-- Modelled from the spec: pool `open` — "opens `num_conns` independent
Clients, each with its own connection opened under the identical
configuration" (spec section 4.3); the member count defaults to a small
positive constant (4 here) and is forced to be at least 1. -/
def PoolBuilder.openPool (b : PoolBuilder) : Pool :=
  { members := List.replicate (max 1 (b.numConns.getD 4))
                 { state := .running, mode := b.mode },
    db := freshDb, cursor := 0 }

/-- Modelled from the spec: pool `open_blocking` — the same open, awaited
by blocking (spec section 6). -/
def PoolBuilder.open_blocking (b : PoolBuilder) : Pool :=
  { members := List.replicate (max 1 (b.numConns.getD 4))
                 { state := .running, mode := b.mode },
    db := freshDb, cursor := 0 }

/-- A call on the public Client surface, as issued by a caller: `open` (with
its builder configuration), `run`, `run_blocking`, `close`,
`close_blocking`. -/
inductive Call where
  | openCall (b : ClientBuilder)
  | run (op : Op)
  | runBlocking (op : Op)
  | close
  | closeBlocking

/-- Modelled from the spec: dispatch of one public call to the protocol,
returning the explicit outcome delivered to the caller.  An `open` call
hands the caller the freshly opened handle (its acknowledgement reported as
the unit value, the caller continuing on the new handle) or the open error,
the caller keeping its current handle; a close acknowledgement is likewise
reported as the unit value. -/
def execCall (c : Client) : Call → Client × Except Error Value
  | .openCall b =>
    match ClientBuilder.tryOpen b with
    | .ok cl => (cl, .ok .unit)
    | .error e => (c, .error e)
  | .run op => c.conn op
  | .runBlocking op => c.conn_blocking op
  | .close =>
    let r := c.close
    (r.1, r.2.map (fun _ => .unit))
  | .closeBlocking =>
    let r := c.close_blocking
    (r.1, r.2.map (fun _ => .unit))

/-- Executes a sequence of public calls against a Client, collecting the
outcome delivered for each call in order. -/
def execCalls (c : Client) : List Call → Client × List (Except Error Value)
  | [] => (c, [])
  | call :: rest =>
    let r := execCall c call
    let w := execCalls r.1 rest
    (w.1, r.2 :: w.2)

/-! ## Basic lemmas about the Worker loop -/

theorem workerRun_nil (i : Nat) (c : Conn) : workerRun i c [] = (c, [], []) := rfl

theorem workerRun_cons (i : Nat) (c : Conn) (op : Op) (rest : List Op) :
    workerRun i c (op :: rest) =
      ((workerRun (i + 1) (op c).1 rest).1,
       toResponse (op c).2 :: (workerRun (i + 1) (op c).1 rest).2.1,
       .start i :: .finish i :: (workerRun (i + 1) (op c).1 rest).2.2) := rfl

/-- The Worker delivers exactly one response per envelope in its inbox. -/
theorem workerRun_length (i : Nat) (c : Conn) (ops : List Op) :
    (workerRun i c ops).2.1.length = ops.length := by
  induction ops generalizing i c with
  | nil => rfl
  | cons op rest ih => simp [workerRun_cons, ih]

/-- Splitting the Worker's inbox: processing a concatenation is processing
the first part and then the second from the reached connection state. -/
theorem workerRun_append (i : Nat) (c : Conn) (xs ys : List Op) :
    workerRun i c (xs ++ ys) =
      ((workerRun (i + xs.length) (workerRun i c xs).1 ys).1,
       (workerRun i c xs).2.1 ++ (workerRun (i + xs.length) (workerRun i c xs).1 ys).2.1,
       (workerRun i c xs).2.2 ++ (workerRun (i + xs.length) (workerRun i c xs).1 ys).2.2) := by
  induction xs generalizing i c with
  | nil => simp [workerRun_nil]
  | cons op rest ih =>
    simp only [List.cons_append, workerRun_cons, ih, List.length_cons]
    rw [show i + (rest.length + 1) = i + 1 + rest.length from by omega]

/-- The connection reached and the responses delivered do not depend on the
index used for the event trace. -/
theorem workerRun_index_free (i j : Nat) (c : Conn) (ops : List Op) :
    (workerRun i c ops).1 = (workerRun j c ops).1
  ∧ (workerRun i c ops).2.1 = (workerRun j c ops).2.1 := by
  induction ops generalizing i j c with
  | nil => exact ⟨rfl, rfl⟩
  | cons op rest ih =>
    simp only [workerRun_cons]
    exact ⟨(ih (i + 1) (j + 1) (op c).1).1,
           by rw [(ih (i + 1) (j + 1) (op c).1).2]⟩

/-- The Worker's event trace is the canonical strictly sequential trace. -/
theorem workerRun_events (i : Nat) (c : Conn) (ops : List Op) :
    (workerRun i c ops).2.2 = canonicalTrace i ops.length := by
  induction ops generalizing i c with
  | nil => rfl
  | cons op rest ih => simp [workerRun_cons, canonicalTrace, ih]

/-- At most one operation is in flight at any point of the canonical
trace. -/
theorem inFlight_canonicalTrace_take (k : Nat) :
    ∀ i n, inFlight ((canonicalTrace i k).take n) ≤ 1 := by
  induction k with
  | zero => intro i n; simp [canonicalTrace, inFlight, countStart, countFinish]
  | succ k ih =>
    intro i n
    match n with
    | 0 => simp [inFlight, countStart, countFinish]
    | 1 =>
      simp [canonicalTrace, List.take_succ_cons, inFlight, countStart, countFinish]
    | n + 2 =>
      have h := ih (i + 1) n
      simpa [canonicalTrace, List.take_succ_cons, inFlight, countStart,
             countFinish, Nat.succ_sub_succ] using h

/-- In the canonical trace, once a later operation has started, every
earlier operation has already finished. -/
theorem canonical_finish_before (a b : Nat) (hab : a < b) :
    ∀ k i n, i ≤ a → Event.start b ∈ (canonicalTrace i k).take n →
      Event.finish a ∈ (canonicalTrace i k).take n := by
  intro k
  induction k with
  | zero => intro i n _ hmem; simp [canonicalTrace] at hmem
  | succ k ih =>
    intro i n hia hmem
    match n with
    | 0 => simp at hmem
    | 1 =>
      simp [canonicalTrace, List.take_succ_cons] at hmem
      omega
    | n + 2 =>
      simp only [canonicalTrace, List.take_succ_cons, List.mem_cons] at hmem ⊢
      rcases hmem with h | h | h
      · exact absurd (Event.start.inj h) (by omega)
      · exact absurd h (by simp)
      · rcases Nat.eq_or_lt_of_le hia with rfl | hlt
        · exact Or.inr (Or.inl rfl)
        · exact Or.inr (Or.inr (ih (i + 1) n hlt h))

/-! ## Claim theorems about the Worker loop -/

/-- C1: on any connection's Worker, operations never execute concurrently —
along every prefix of the Worker's event trace at most one submitted
operation is in flight, and an operation submitted later starts only after
every earlier one has finished. -/
theorem worker_mutual_exclusion (c : Conn) (ops : List Op) :
    (∀ n, inFlight (((workerRun 0 c ops).2.2).take n) ≤ 1)
  ∧ (∀ a b n, a < b →
      Event.start b ∈ ((workerRun 0 c ops).2.2).take n →
      Event.finish a ∈ ((workerRun 0 c ops).2.2).take n) := by
  rw [workerRun_events]
  exact ⟨fun n => inFlight_canonicalTrace_take ops.length 0 n,
         fun a b n hab hmem =>
           canonical_finish_before a b hab ops.length 0 n (Nat.zero_le a) hmem⟩

/-- Witness for C1: on a concrete two-operation inbox, operation 1 has
started within the first four events and operation 0 has finished there. -/
theorem worker_mutual_exclusion_witness :
    (0 < 1)
  ∧ Event.start 1 ∈
      (((workerRun 0 { mode := .wal, db := freshDb }
          [indexLogOp 0, indexLogOp 1]).2.2).take 4)
  ∧ Event.finish 0 ∈
      (((workerRun 0 { mode := .wal, db := freshDb }
          [indexLogOp 0, indexLogOp 1]).2.2).take 4) :=
  ⟨by decide, by decide,
   (worker_mutual_exclusion { mode := .wal, db := freshDb }
      [indexLogOp 0, indexLogOp 1]).2 0 1 4 (by decide) (by decide)⟩

/-- Processing the index-logging operations of the spec's testable
property 1 appends exactly the submitted indices, in order, and answers
each with the unit acknowledgement. -/
theorem workerRun_indexLog (n : Nat) :
    ∀ a i c, (workerRun i c ((List.range' a n).map indexLogOp)).2.1 =
        List.replicate n (Except.ok Value.unit)
      ∧ (workerRun i c ((List.range' a n).map indexLogOp)).1 =
          { c with db := { c.db with log := c.db.log ++ List.range' a n } } := by
  induction n with
  | zero => intro a i c; simp [workerRun_nil]
  | succ n ih =>
    intro a i c
    rw [List.range'_succ]
    simp only [List.map_cons, workerRun_cons, indexLogOp, List.replicate_succ]
    refine ⟨by rw [(ih (a + 1) (i + 1) _).1]; rfl, ?_⟩
    rw [(ih (a + 1) (i + 1) _).2]
    simp

/-- C2: the Worker executes a sequence of N submitted operations in exact
submission order — running the spec's index-logging operations leaves the
connection log equal to the submission order `0, 1, ..., N-1`, and one
response (the unit acknowledgement) is delivered for each of the N
operations. -/
theorem worker_fifo_order (c : Conn) (N : Nat) :
    (workerRun 0 c ((List.range N).map indexLogOp)).1.db.log =
        c.db.log ++ List.range N
  ∧ (workerRun 0 c ((List.range N).map indexLogOp)).2.1 =
        List.replicate N (Except.ok Value.unit)
  ∧ (workerRun 0 c ((List.range N).map indexLogOp)).2.1.length = N := by
  rw [List.range_eq_range']
  refine ⟨?_, (workerRun_indexLog N 0 0 c).1, ?_⟩
  · rw [(workerRun_indexLog N 0 0 c).2]
  · rw [workerRun_length, List.length_map, List.length_range']

/-- C3: an operation whose callback terminates abnormally is caught at the
loop boundary — whatever connection state `f` the abort leaves behind, the
Worker delivers a response for every envelope (none is lost), the aborted
operation's caller receives exactly OperationAbortedError, and the Worker
continues processing all subsequent envelopes from that state. -/
theorem worker_abort_containment (pre post : List Op) (f : Conn → Conn) (c : Conn) :
    (workerRun 0 c (pre ++ (fun v => (f v, Outcome.aborted)) :: post)).2.1.length
        = pre.length + 1 + post.length
  ∧ (workerRun 0 c (pre ++ (fun v => (f v, Outcome.aborted)) :: post)).2.1
      = (workerRun 0 c pre).2.1
          ++ Except.error Error.operationAborted
            :: (workerRun 0 (f (workerRun 0 c pre).1) post).2.1 := by
  constructor
  · rw [workerRun_length]
    simp [List.length_append]
    omega
  · rw [workerRun_append, workerRun_cons]
    simp only [toResponse]
    rw [(workerRun_index_free (0 + pre.length + 1) 0
          (f (workerRun 0 c pre).1) post).2]

/-- C4: an operation that fails — returning an engine-level error or
terminating abnormally — delivers exactly that error (EngineError with the
engine's code, respectively OperationAbortedError) to the caller that
submitted it, at its own position in the response sequence, while the
responses of all earlier operations are unchanged and every subsequent
operation is answered exactly as it would be had the failing operation
never been submitted. -/
theorem worker_error_isolation (pre post : List Op) (k : Nat) (c : Conn) :
    (workerRun 0 c (pre ++ (fun v => (v, Outcome.engineErr k)) :: post)).2.1
      = (workerRun 0 c pre).2.1
          ++ Except.error (Error.engine k)
            :: (workerRun 0 (workerRun 0 c pre).1 post).2.1
  ∧ (workerRun 0 c (pre ++ (fun v => (v, Outcome.aborted)) :: post)).2.1
      = (workerRun 0 c pre).2.1
          ++ Except.error Error.operationAborted
            :: (workerRun 0 (workerRun 0 c pre).1 post).2.1
  ∧ (workerRun 0 c (pre ++ post)).2.1
      = (workerRun 0 c pre).2.1 ++ (workerRun 0 (workerRun 0 c pre).1 post).2.1 := by
  refine ⟨?_, ?_, ?_⟩
  · rw [workerRun_append, workerRun_cons]
    simp only [toResponse]
    rw [(workerRun_index_free (0 + pre.length + 1) 0
          (workerRun 0 c pre).1 post).2]
  · rw [workerRun_append, workerRun_cons]
    simp only [toResponse]
    rw [(workerRun_index_free (0 + pre.length + 1) 0
          (workerRun 0 c pre).1 post).2]
  · rw [workerRun_append,
        (workerRun_index_free (0 + pre.length) 0 (workerRun 0 c pre).1 post).2]

/-! ## Lemmas about the Client lifecycle -/

/-- After any close request the handle is in the Closed state. -/
theorem close_state_closed (c : Client) : (Client.close c).1.state = .closed := by
  cases hs : c.state <;> simp [Client.close, hs]

/-- Closing an already-closed handle acknowledges without error and changes
nothing. -/
theorem close_of_closed (c : Client) (h : c.state = .closed) :
    Client.close c = (c, Except.ok ()) := by
  simp [Client.close, h]

/-- Submitting to a closed handle is rejected immediately with ClosedError
and nothing is enqueued. -/
theorem conn_of_closed (c : Client) (h : c.state = .closed) (op : Op) :
    Client.conn c op = (c, Except.error Error.closed) := by
  simp [Client.conn, Client.submit, h]

/-- C5: close is idempotent-safe and terminal — after a close, a second
close acknowledges again without error and changes nothing, and any
operation submitted afterwards is rejected immediately with ClosedError,
leaving the handle (in particular its inbox) untouched. -/
theorem close_idempotent_terminal (c : Client) :
    Client.close (Client.close c).1 = ((Client.close c).1, Except.ok ())
  ∧ ∀ op, Client.conn (Client.close c).1 op
      = ((Client.close c).1, Except.error Error.closed) :=
  ⟨close_of_closed _ (close_state_closed c),
   fun op => conn_of_closed _ (close_state_closed c) op⟩

/-- Every delivered outcome is an explicit success or one of the four
documented errors — for any success payload (a value for `run`, an
acknowledgement for `close`, a Client handle for `open`). -/
theorem response_taxonomy {α : Type} (o : Except Error α) :
    (∃ v, o = Except.ok v)
  ∨ (∃ k, o = Except.error (Error.engine k))
  ∨ o = Except.error Error.closed
  ∨ o = Except.error Error.workerLost
  ∨ o = Except.error Error.operationAborted := by
  rcases o with e | v
  · cases e with
    | engine k => exact Or.inr (Or.inl ⟨k, rfl⟩)
    | closed => exact Or.inr (Or.inr (Or.inl rfl))
    | workerLost => exact Or.inr (Or.inr (Or.inr (Or.inl rfl)))
    | operationAborted => exact Or.inr (Or.inr (Or.inr (Or.inr rfl)))
  · exact Or.inl ⟨v, rfl⟩

/-- C6: every public call — open, run, run_blocking, close (and
close_blocking) — receives exactly one explicit outcome.  For every builder
configuration, `open` returns either a Client or one of the four documented
errors; and executing any sequence of public calls (open calls included)
delivers exactly one outcome per call, each either a value or one of the
four documented errors (EngineError, ClosedError, WorkerLostError,
OperationAbortedError) — no result is silently dropped. -/
theorem calls_explicit_outcome (b : ClientBuilder) (c : Client) (calls : List Call) :
    ((∃ cl, ClientBuilder.tryOpen b = Except.ok cl)
      ∨ (∃ k, ClientBuilder.tryOpen b = Except.error (Error.engine k))
      ∨ ClientBuilder.tryOpen b = Except.error Error.closed
      ∨ ClientBuilder.tryOpen b = Except.error Error.workerLost
      ∨ ClientBuilder.tryOpen b = Except.error Error.operationAborted)
  ∧ (execCalls c calls).2.length = calls.length
  ∧ ∀ o ∈ (execCalls c calls).2,
      (∃ v, o = Except.ok v)
    ∨ (∃ k, o = Except.error (Error.engine k))
    ∨ o = Except.error Error.closed
    ∨ o = Except.error Error.workerLost
    ∨ o = Except.error Error.operationAborted := by
  refine ⟨response_taxonomy _, ?_⟩
  induction calls generalizing c with
  | nil => simp [execCalls]
  | cons call rest ih =>
    simp only [execCalls, List.length_cons, List.mem_cons]
    refine ⟨by rw [(ih _).1], ?_⟩
    rintro o (rfl | hmem)
    · exact response_taxonomy _
    · exact (ih _).2 o hmem

/-- Witness for C6: a concrete three-call session (an open, a write, then
close) whose first outcome is the unit acknowledgement of the open,
classified by the theorem. -/
theorem calls_explicit_outcome_witness :
    Except.ok Value.unit ∈
      (execCalls (ClientBuilder.new.openClient)
        [Call.openCall ClientBuilder.new,
         Call.run (writeOp 1 "value1"), Call.close]).2
  ∧ ((∃ v, (Except.ok Value.unit : Except Error Value) = Except.ok v)
    ∨ (∃ k, (Except.ok Value.unit : Except Error Value)
          = Except.error (Error.engine k))
    ∨ (Except.ok Value.unit : Except Error Value) = Except.error Error.closed
    ∨ (Except.ok Value.unit : Except Error Value) = Except.error Error.workerLost
    ∨ (Except.ok Value.unit : Except Error Value)
        = Except.error Error.operationAborted) := by
  have h : (execCalls (ClientBuilder.new.openClient)
      [Call.openCall ClientBuilder.new,
       Call.run (writeOp 1 "value1"), Call.close]).2
      = [Except.ok Value.unit, Except.ok Value.unit, Except.ok Value.unit] := rfl
  refine ⟨by rw [h]; exact List.mem_cons_self _ _, ?_⟩
  exact (calls_explicit_outcome ClientBuilder.new (ClientBuilder.new.openClient)
      [Call.openCall ClientBuilder.new,
       Call.run (writeOp 1 "value1"), Call.close]).2.2 _
      (by rw [h]; exact List.mem_cons_self _ _)

/-! ## Lemmas about the Pool -/

/-- A member that handled the pool close request is in the Closed state. -/
theorem memberClose_state (m : Member) : (memberClose m).1.state = .closed := by
  cases hs : m.state <;> simp [memberClose, hs]

/-- The pool-close aggregation succeeds exactly when every member
acknowledgement succeeded. -/
theorem firstErr_ok_iff (l : List (Except Error Unit)) :
    firstErr l = .ok () ↔ ∀ x ∈ l, x = .ok () := by
  induction l with
  | nil => simp [firstErr]
  | cons x rest ih =>
    rcases x with e | v
    · simp only [firstErr, List.mem_cons]
      constructor
      · intro h; exact absurd h (by simp)
      · intro h; exact absurd (h _ (Or.inl rfl)) (by simp)
    · cases v
      simp [firstErr, ih]

/-- C7: pool-level close closes every member — afterwards every member is
in the Closed state — and it acknowledges success exactly when every
member's close succeeded (otherwise it reports the first member failure). -/
theorem pool_close_members (p : Pool) :
    (∀ m ∈ (Pool.close p).1.members, m.state = .closed)
  ∧ ((Pool.close p).2 = Except.ok ()
      ↔ ∀ m ∈ p.members, (memberClose m).2 = Except.ok ()) := by
  constructor
  · intro m hm
    simp only [Pool.close] at hm
    rcases List.mem_map.1 hm with ⟨m', _, rfl⟩
    exact memberClose_state m'
  · simp only [Pool.close]
    rw [firstErr_ok_iff]
    exact List.forall_mem_map

/-- Witness for C7: closing a concrete two-member pool (one running, one
already closed) leaves a closed member, as the theorem states for every
member of the closed pool. -/
theorem pool_close_members_witness :
    ({ state := .closed, mode := .wal } : Member) ∈
      (Pool.close { members := [{ state := .running, mode := .wal },
                                { state := .closed, mode := .wal }],
                    db := freshDb, cursor := 0 }).1.members
  ∧ ({ state := .closed, mode := .wal } : Member).state = .closed :=
  ⟨by decide,
   (pool_close_members { members := [{ state := .running, mode := .wal },
                                     { state := .closed, mode := .wal }],
                         db := freshDb, cursor := 0 }).1 _ (by decide)⟩

/-- A freshly opened pool has at least one member. -/
theorem openPool_members_pos (pb : PoolBuilder) :
    0 < (PoolBuilder.openPool pb).members.length := by
  simp [PoolBuilder.openPool]

/-- C8: the journal-mode configuration is honored — for every builder
configuration, the opened Client's connection carries exactly the
configured mode, and querying `PRAGMA journal_mode` through `conn` on the
freshly opened Client, or on a freshly opened Pool of any configured size,
returns exactly the configured mode. -/
theorem journal_mode_honored (b : ClientBuilder) (pb : PoolBuilder) :
    (ClientBuilder.openClient b).connection.mode = b.mode
  ∧ (Client.conn (ClientBuilder.openClient b) pragmaJournalMode).2
      = Except.ok (Value.str b.mode.toStr)
  ∧ (Pool.conn (PoolBuilder.openPool pb) pragmaJournalMode).2
      = Except.ok (Value.str pb.mode.toStr) := by
  refine ⟨rfl, rfl, ?_⟩
  have hlen : 0 < max 1 (pb.numConns.getD 4) := Nat.le_max_left 1 _
  simp [Pool.conn, PoolBuilder.openPool, List.getElem?_replicate, hlen,
        pragmaJournalMode, toResponse]

/-- C9: round-trip — for every value `v`, writing row `(1, v)` and then
reading row 1 back, through two successive `conn` calls on the same freshly
opened Client, or on the same freshly opened Pool (where round-robin sends
the two operations to possibly different members sharing the database),
returns exactly `v`. -/
theorem write_read_roundtrip (v : String) (b : ClientBuilder) (pb : PoolBuilder) :
    (Client.conn (ClientBuilder.openClient b) (writeOp 1 v)).2 = Except.ok Value.unit
  ∧ (Client.conn (Client.conn (ClientBuilder.openClient b) (writeOp 1 v)).1
        (readOp 1)).2 = Except.ok (Value.str v)
  ∧ (Pool.conn (PoolBuilder.openPool pb) (writeOp 1 v)).2 = Except.ok Value.unit
  ∧ (Pool.conn (Pool.conn (PoolBuilder.openPool pb) (writeOp 1 v)).1
        (readOp 1)).2 = Except.ok (Value.str v) := by
  have hlen : 0 < max 1 (pb.numConns.getD 4) := Nat.le_max_left 1 _
  have hmod : 1 % max 1 (pb.numConns.getD 4) < max 1 (pb.numConns.getD 4) :=
    Nat.mod_lt _ hlen
  refine ⟨rfl, rfl, ?_, ?_⟩
  · simp [Pool.conn, PoolBuilder.openPool, List.getElem?_replicate, hlen,
          writeOp, freshDb, toResponse]
  · simp [Pool.conn, PoolBuilder.openPool, List.getElem?_replicate, hlen, hmod,
          writeOp, readOp, freshDb, toResponse, List.set_replicate_self]

/-- C10: the blocking entry points agree with their suspending
counterparts — for every configuration, client, pool and operation,
`open_blocking`, `conn_blocking` and `close_blocking` produce exactly the
same handle/outcome pair as `open`, `conn` and `close`. -/
theorem blocking_matches_suspending :
    (∀ b : ClientBuilder, ClientBuilder.open_blocking b = ClientBuilder.openClient b)
  ∧ (∀ (c : Client) (op : Op), Client.conn_blocking c op = Client.conn c op)
  ∧ (∀ c : Client, Client.close_blocking c = Client.close c)
  ∧ (∀ pb : PoolBuilder, PoolBuilder.open_blocking pb = PoolBuilder.openPool pb)
  ∧ (∀ (p : Pool) (op : Op), Pool.conn_blocking p op = Pool.conn p op)
  ∧ (∀ p : Pool, Pool.close_blocking p = Pool.close p) :=
  ⟨fun _ => rfl, fun _ _ => rfl, fun _ => rfl, fun _ => rfl, fun _ _ => rfl,
   fun _ => rfl⟩

end AsyncSqlite
